import Mathlib

/-!
Verification of the streaming chunk protocol of the `gpt_agent` backend
(`browser-copilot`, directory `agent-thinking`).

The development shallowly embeds the code under `gpt_agent/`:

* `StreamingChunk`        — `gpt_agent/domain.py`, class `StreamingChunk`
* `createResponseStream`  — `gpt_agent/api.py`, `_create_response_stream`
* `streamResponseChunks`  — `gpt_agent/api.py`, `_stream_response_chunks`
* `generateStandardResponse`, `generateThinkingResponse`,
  `extractTokenUsage`, `extractThinkingTokenUsage`
                          — `gpt_agent/gemini.py`, class `GeminiService`
* `askWithStreamingChunks`, `calculateTokens`
                          — `gpt_agent/services/openai_agent.py`

Async generators are modelled as functions producing the full list of
values they yield; a generator that may raise mid-stream is modelled by
`UpstreamOutcome`: either it delivers a list of items and stops normally,
or it delivers a prefix and then raises an exception carrying a message
(`str(e)` in the Python code).
-/

namespace GptAgent

/-- Model of `gpt_agent/domain.py`, `StreamingChunk`: pydantic model with field order
`type`, `content`, `tokens`, `thoughts_tokens`, `error`; all but `type`
default to `None`. -/
structure StreamingChunk where
  type : String
  content : Option String := none
  tokens : Option Nat := none
  thoughts_tokens : Option Nat := none
  error : Option String := none
  deriving Repr, DecidableEq

/-- Chunk `StreamingChunk(type="content", content=s)`. -/
def contentChunk (s : String) : StreamingChunk :=
  { type := "content", content := some s }

/-- Chunk `StreamingChunk(type="thought", content=s)`. -/
def thoughtChunk (s : String) : StreamingChunk :=
  { type := "thought", content := some s }

/-- Chunk `StreamingChunk(type="tokens", tokens=n)`. -/
def tokensChunk (n : Nat) : StreamingChunk :=
  { type := "tokens", tokens := some n }

/-- Chunk `StreamingChunk(type="tokens", tokens=n, thoughts_tokens=t)`. -/
def thinkingTokensChunk (n t : Nat) : StreamingChunk :=
  { type := "tokens", tokens := some n, thoughts_tokens := some t }

/-- Chunk `StreamingChunk(type="error", error=msg)`. -/
def errorChunk (msg : String) : StreamingChunk :=
  { type := "error", error := some msg }

/-- Chunk `StreamingChunk(type="end")`. -/
def endChunk : StreamingChunk := { type := "end" }

/-- Outcome of consuming an async generator: it either yields `items` and
finishes normally, or yields `delivered` and then raises an exception whose
`str` is `message`. -/
inductive UpstreamOutcome (α : Type) where
  | ok (items : List α)
  | raised (delivered : List α) (message : String)
  deriving Repr, DecidableEq

/-- The Question record handed to `questions_repo.save_question`
(`gpt_agent/domain.py`, `Question`; the `id`/`session` fields play no role
in the claims). -/
structure QuestionRecord where
  question : String
  answer : String
  deriving Repr, DecidableEq

/-- Left-to-right concatenation of a list of strings (the running
`full_response += text` / `complete_answer += chunk.content`
accumulation). -/
def concatAll : List String → String
  | [] => ""
  | s :: rest => s ++ concatAll rest

/-- The text the aggregator accumulates from a chunk list: the concatenation
of the text of every chunk of `type == "content"`, in order (other kinds
contribute nothing; an absent `content` field contributes nothing). -/
def contentConcat : List StreamingChunk → String
  | [] => ""
  | c :: rest =>
      (if c.type = "content" then c.content.getD "" else "") ++ contentConcat rest

/-- Loop body of `_create_response_stream` (`gpt_agent/api.py`): forward each
chunk, accumulating `complete_answer += chunk.content` whenever
`chunk.type == "content" and chunk.content` is truthy.  The second argument is
`none` when the wrapped generator finishes normally (then the accumulated
`Question` is saved) and `some err` when it raises after the listed chunks
(then the `except` branch yields a single error chunk and no save happens). -/
def createResponseStreamGo (question : String) (acc : String) :
    List StreamingChunk → Option String → List StreamingChunk × Option QuestionRecord
  | [], none => ([], some { question := question, answer := acc })
  | [], some err => ([errorChunk err], none)
  | c :: rest, e =>
      let acc2 :=
        if c.type = "content" ∧ c.content.getD "" ≠ "" then acc ++ c.content.getD ""
        else acc
      let r := createResponseStreamGo question acc2 rest e
      (c :: r.1, r.2)

/-- Model of `gpt_agent/api.py`, `_create_response_stream`: returns the chunks yielded
to the consumer together with the `Question` handed to
`questions_repo.save_question` (or `none` if the save was never reached). -/
def createResponseStream (question : String) :
    UpstreamOutcome StreamingChunk → List StreamingChunk × Option QuestionRecord
  | .ok chunks => createResponseStreamGo question "" chunks none
  | .raised delivered err => createResponseStreamGo question "" delivered (some err)

/- ### Wire encoder (`_stream_response_chunks`) -/

/-- JSON string escaping as performed by `model_dump_json` for the characters
that can appear here. -/
def escapeJsonChar (c : Char) : String :=
  if c = '"' then "\\\""
  else if c = '\\' then "\\\\"
  else if c = '\n' then "\\n"
  else if c = '\r' then "\\r"
  else if c = '\t' then "\\t"
  else String.singleton c

/-- Escape a whole string for JSON embedding. -/
def escapeJson (s : String) : String :=
  concatAll (s.toList.map escapeJsonChar)

/-- A JSON string literal. -/
def jsonStr (s : String) : String := "\"" ++ escapeJson s ++ "\""

/-- The populated fields of a chunk, rendered as JSON key/value pairs in
pydantic declaration order; `model_dump_json(exclude_none=True)` drops every
field that is `None`. -/
def chunkFields (c : StreamingChunk) : List (String × String) :=
  [("type", jsonStr c.type)]
  ++ (match c.content with | some s => [("content", jsonStr s)] | none => [])
  ++ (match c.tokens with | some n => [("tokens", toString n)] | none => [])
  ++ (match c.thoughts_tokens with | some n => [("thoughts_tokens", toString n)] | none => [])
  ++ (match c.error with | some s => [("error", jsonStr s)] | none => [])

/-- Render an association list as a compact JSON object. -/
def renderObject (fields : List (String × String)) : String :=
  "\x7b" ++ String.intercalate "," (fields.map fun f => jsonStr f.1 ++ ":" ++ f.2) ++ "\x7d"

/-- Serialization `chunk.model_dump_json(exclude_none=True)`. -/
def modelDumpJson (c : StreamingChunk) : String := renderObject (chunkFields c)

/-- One server-sent-events frame: `f"data: ...\n\n"`. -/
def sseFrame (c : StreamingChunk) : String := "data: " ++ modelDumpJson c ++ "\n\n"

/-- Loop of `_stream_response_chunks` (`gpt_agent/api.py`): frame each chunk;
on normal exhaustion (`none`) append the `end` frame, on an exception
(`some err`) the `except` branch emits a single error frame instead. -/
def streamResponseChunksGo : List StreamingChunk → Option String → List String
  | [], none => [sseFrame endChunk]
  | [], some err => [sseFrame (errorChunk err)]
  | c :: rest, e => sseFrame c :: streamResponseChunksGo rest e

/-- Model of `gpt_agent/api.py`, `_stream_response_chunks`. -/
def streamResponseChunks : UpstreamOutcome StreamingChunk → List String
  | .ok chunks => streamResponseChunksGo chunks none
  | .raised delivered err => streamResponseChunksGo delivered (some err)

/-- The names of the non-null fields of a chunk, in declaration order. -/
def populatedFields (c : StreamingChunk) : List String :=
  ["type"]
  ++ (if c.content.isSome then ["content"] else [])
  ++ (if c.tokens.isSome then ["tokens"] else [])
  ++ (if c.thoughts_tokens.isSome then ["thoughts_tokens"] else [])
  ++ (if c.error.isSome then ["error"] else [])

/- ### Gemini service (`gpt_agent/gemini.py`) -/

/-- A message of the langchain conversation history
(`HumanMessage` / `AIMessage`). -/
inductive ChatMessage where
  | human (text : String)
  | ai (text : String)
  deriving Repr, DecidableEq

/-- One entry of the `contents` list built by `_build_gemini_contents`:
`{"role": ..., "parts": [{"text": ...}]}`. -/
structure GeminiContent where
  role : String
  parts : List String
  deriving Repr, DecidableEq

/-- Model of `gpt_agent/gemini.py`, `_build_gemini_contents`: `HumanMessage ↦ role
"user"`, `AIMessage ↦ role "model"`. -/
def buildGeminiContents (history : List ChatMessage) : List GeminiContent :=
  history.map fun m =>
    match m with
    | .human t => { role := "user", parts := [t] }
    | .ai t => { role := "model", parts := [t] }

/-- One `part` of a Gemini response candidate.  `text := ""` models an
absent or empty `part.text` (both are falsy, and the code skips them the
same way); `thought` models the `part.thought` flag (`False` when the
attribute is absent or falsy). -/
structure GenPart where
  text : String
  thought : Bool := false
  deriving Repr, DecidableEq

/-- One `candidate` of a Gemini response chunk; `parts := []` models an
absent `candidate.content` or an absent/empty `candidate.content.parts`
(all are skipped by `continue`). -/
structure GenCandidate where
  parts : List GenPart
  deriving Repr, DecidableEq

/-- Model of `response.usage_metadata`: `total_token_count`, and
`thoughts_token_count` when that attribute exists. -/
structure UsageMetadata where
  total_token_count : Nat
  thoughts_token_count : Option Nat := none
  deriving Repr, DecidableEq

/-- One chunk yielded by `client.models.generate_content_stream`;
`usage_metadata := none` models a response without usable usage metadata. -/
structure GenResponseChunk where
  candidates : List GenCandidate
  usage_metadata : Option UsageMetadata := none
  deriving Repr, DecidableEq

/-- The parts visited by the nested `for candidate in chunk.candidates` /
`for part in candidate.content.parts` loops, over the whole stream. -/
def allParts (items : List GenResponseChunk) : List GenPart :=
  items.flatMap fun ch => ch.candidates.flatMap fun cand => cand.parts

/-- Standard mode keeps `part.text` for every part with truthy text
(`if part.text:`). -/
def stdTexts (parts : List GenPart) : List String :=
  parts.filterMap fun p => if p.text = "" then none else some p.text

/-- Thinking mode keeps `(part.thought, part.text)` for every part with
truthy text (`if not part.text: continue`). -/
def thkPairs (parts : List GenPart) : List (Bool × String) :=
  parts.filterMap fun p => if p.text = "" then none else some (p.thought, p.text)

/-- Thinking mode accumulates `full_response` from non-thought parts only. -/
def answerTexts (pairs : List (Bool × String)) : List String :=
  pairs.filterMap fun bt => if bt.1 then none else some bt.2

/-- Thinking mode accumulates `full_thoughts` from thought parts only. -/
def thoughtTexts (pairs : List (Bool × String)) : List String :=
  pairs.filterMap fun bt => if bt.1 then some bt.2 else none

/-- The chunk yielded for one thinking-mode part: a `thought` chunk when the
`part.thought` flag is set, otherwise a `content` chunk. -/
def thinkingChunkOf (bt : Bool × String) : StreamingChunk :=
  if bt.1 then thoughtChunk bt.2 else contentChunk bt.2

/-- Value of `final_response`: the last stream chunk (`None` for an empty stream),
and its usage metadata is read off it; `_extract_token_usage` falls back to
the estimate when `final_response` is `None` or the metadata is unusable. -/
def lastResponseUsage (items : List GenResponseChunk) : Option UsageMetadata :=
  match items.getLast? with
  | some ch => ch.usage_metadata
  | none => none

/-- Word counting for `len(s.split())`: number of maximal non-empty runs of
non-whitespace characters.  The boolean records whether the previous
character belonged to a word. -/
def pyWordsAux : List Char → Bool → Nat
  | [], _ => 0
  | c :: rest, inWord =>
      if c.isWhitespace then pyWordsAux rest false
      else (if inWord then 0 else 1) + pyWordsAux rest true

/-- Count `len(s.split())`: Python `str.split()` with no separator splits on runs
of whitespace and drops empty pieces. -/
def pyWords (s : String) : Nat :=
  pyWordsAux s.toList false

/-- Model of `gpt_agent/gemini.py`, `_extract_token_usage`: prefer
`usage_metadata.total_token_count`, else (or on an exception while reading
it) estimate `len(full_response.split()) + len(message.split())`. -/
def extractTokenUsage (usage : Option UsageMetadata) (message fullResponse : String) : Nat :=
  match usage with
  | some u => u.total_token_count
  | none => pyWords fullResponse + pyWords message

/-- Model of `gpt_agent/gemini.py`, `_extract_thinking_token_usage`: prefer
`(total_token_count, getattr(..., 'thoughts_token_count', 0))`, else the
estimates `(words(resp)+words(msg)+words(thoughts), words(thoughts))`. -/
def extractThinkingTokenUsage (usage : Option UsageMetadata)
    (message fullResponse fullThoughts : String) : Nat × Nat :=
  match usage with
  | some u => (u.total_token_count, u.thoughts_token_count.getD 0)
  | none =>
      (pyWords fullResponse + pyWords message + pyWords fullThoughts, pyWords fullThoughts)

/-- What one run of a Gemini generator produced: the yielded chunks, the
conversation history after the run, and the `contents` value that was passed
to the upstream `generate_content_stream` call. -/
structure AdapterResult where
  chunks : List StreamingChunk
  history : List ChatMessage
  sentContents : List GeminiContent
  deriving Repr, DecidableEq

/-- Model of `gpt_agent/gemini.py`, `generate_standard_response`: append the user
message to memory, read the full history, build `contents`, stream the
upstream response yielding a `content` chunk per truthy part text, then
append the accumulated answer to memory and yield one `tokens` chunk.  Any
exception from the upstream stream is caught and turned into a terminal
`error` chunk (skipping the memory append and the `tokens` chunk). -/
def generateStandardResponse (message : String) (history : List ChatMessage)
    (upstream : UpstreamOutcome GenResponseChunk) : AdapterResult :=
  let historyWithQuestion := history ++ [ChatMessage.human message]
  let contents := buildGeminiContents historyWithQuestion
  match upstream with
  | .ok items =>
      let body := stdTexts (allParts items)
      let fullResponse := concatAll body
      let total := extractTokenUsage (lastResponseUsage items) message fullResponse
      { chunks := body.map contentChunk ++ [tokensChunk total]
        history := historyWithQuestion ++ [ChatMessage.ai fullResponse]
        sentContents := contents }
  | .raised delivered err =>
      { chunks := (stdTexts (allParts delivered)).map contentChunk ++ [errorChunk err]
        history := historyWithQuestion
        sentContents := contents }

/-- Model of `gpt_agent/gemini.py`, `generate_thinking_response`: as the standard
variant, but each truthy-text part is forwarded as a `thought` chunk when
`part.thought` is set and as a `content` chunk otherwise, and the terminal
`tokens` chunk also carries `thoughts_tokens`.  Only `full_response`
(content text) is appended to memory. -/
def generateThinkingResponse (message : String) (history : List ChatMessage)
    (upstream : UpstreamOutcome GenResponseChunk) : AdapterResult :=
  let historyWithQuestion := history ++ [ChatMessage.human message]
  let contents := buildGeminiContents historyWithQuestion
  match upstream with
  | .ok items =>
      let pairs := thkPairs (allParts items)
      let fullResponse := concatAll (answerTexts pairs)
      let fullThoughts := concatAll (thoughtTexts pairs)
      let usage := extractThinkingTokenUsage (lastResponseUsage items) message fullResponse fullThoughts
      { chunks := pairs.map thinkingChunkOf ++ [thinkingTokensChunk usage.1 usage.2]
        history := historyWithQuestion ++ [ChatMessage.ai fullResponse]
        sentContents := contents }
  | .raised delivered err =>
      { chunks := (thkPairs (allParts delivered)).map thinkingChunkOf ++ [errorChunk err]
        history := historyWithQuestion
        sentContents := contents }

/- ### OpenAI agent (`gpt_agent/services/openai_agent.py`) -/

/-- Model of `TokenUsageTracker.calculate_tokens`: `max(1, int((wi + wo) * 0.75))`.
`0.75` is exactly representable in binary floating point and the word counts
are small, so the float product is exact and `int` truncation equals the
natural-number division `3 * n / 4`. -/
def calculateTokens (question fullResponse : String) : Nat :=
  max 1 (3 * (pyWords question + pyWords fullResponse) / 4)

/-- The structural marker of a tool result: `"{\"steps\":"`. -/
def agentFlowMarker : String := "\x7b\"steps\":"

/-- Outcome of one agent run (`self._agent.arun` plus its callback stream):
the tokens delivered through `callback.aiter()`, and either the final
returned value (`await task`) or the exception message when the run raises. -/
inductive AgentRunOutcome where
  | ok (streamedTokens : List String) (finalResult : String)
  | raised (streamedTokens : List String) (message : String)
  deriving Repr, DecidableEq

/-- Model of `gpt_agent/services/openai_agent.py`, `Agent.ask_with_streaming_chunks`.
`validateFlow` models success of `AgentFlow.model_validate_json` (a
black-box JSON validation).  Each streamed token becomes a `content` chunk;
after the run, a final result that differs from the streamed concatenation
is emitted as one more `content` chunk (in every branch of the
marker/validation analysis); then one `tokens` chunk with the estimate.
Exceptions are caught and become a terminal `error` chunk. -/
def askWithStreamingChunks (validateFlow : String → Bool) (question : String) :
    AgentRunOutcome → List StreamingChunk
  | .ok toks finalResult =>
      let fullResponse := concatAll toks
      let streamed := toks.map contentChunk
      let extra :=
        if finalResult ≠ fullResponse then
          if agentFlowMarker.isPrefixOf finalResult then
            if validateFlow finalResult then [contentChunk finalResult]
            else [contentChunk finalResult]
          else [contentChunk finalResult]
        else []
      streamed ++ extra ++ [tokensChunk (calculateTokens question fullResponse)]
  | .raised toks err =>
      toks.map contentChunk ++ [errorChunk err]

/- ### Full exchange pipelines (`gpt_agent/api.py` route handlers) -/

/-- What one full exchange produced: the wire frames streamed to the client,
the persisted Question (if the save ran), and the conversation history after
the exchange. -/
structure ExchangeResult where
  wire : List String
  saved : Option QuestionRecord
  history : List ChatMessage
  deriving Repr, DecidableEq

/-- The `/sessions/{id}/chat-gemini` pipeline: the standard Gemini generator
feeds `_create_response_stream`, whose output feeds
`_stream_response_chunks`.  The generator catches every exception itself, so
the chunk stream reaching the aggregator and the encoder never raises. -/
def geminiStandardExchange (message : String) (history : List ChatMessage)
    (upstream : UpstreamOutcome GenResponseChunk) : ExchangeResult :=
  let adapter := generateStandardResponse message history upstream
  let agg := createResponseStream message (.ok adapter.chunks)
  { wire := streamResponseChunks (.ok agg.1)
    saved := agg.2
    history := adapter.history }

/-- The `/sessions/{id}/thinking-chat-gemini` pipeline. -/
def geminiThinkingExchange (message : String) (history : List ChatMessage)
    (upstream : UpstreamOutcome GenResponseChunk) : ExchangeResult :=
  let adapter := generateThinkingResponse message history upstream
  let agg := createResponseStream message (.ok adapter.chunks)
  { wire := streamResponseChunks (.ok agg.1)
    saved := agg.2
    history := adapter.history }

/- ### Helper lemmas -/

theorem concatAll_append (a b : List String) :
    concatAll (a ++ b) = concatAll a ++ concatAll b := by
  induction a with
  | nil => simp [concatAll]
  | cons s rest ih => simp [concatAll, ih, String.append_assoc]

theorem contentConcat_append (a b : List StreamingChunk) :
    contentConcat (a ++ b) = contentConcat a ++ contentConcat b := by
  induction a with
  | nil => simp [contentConcat]
  | cons c rest ih => simp [contentConcat, ih, String.append_assoc]

theorem createResponseStreamGo_ok (q acc : String) (chunks : List StreamingChunk) :
    createResponseStreamGo q acc chunks none
      = (chunks, some { question := q, answer := acc ++ contentConcat chunks }) := by
  induction chunks generalizing acc with
  | nil => simp [createResponseStreamGo, contentConcat]
  | cons c rest ih =>
      simp only [createResponseStreamGo, ih, contentConcat]
      by_cases hty : c.type = "content"
      · by_cases hc : c.content.getD "" = ""
        · simp [hty, hc]
        · simp [hty, hc, String.append_assoc]
      · simp [hty]

theorem createResponseStreamGo_raised (q acc err : String) (chunks : List StreamingChunk) :
    (createResponseStreamGo q acc chunks (some err))
      = (chunks ++ [errorChunk err], none) := by
  induction chunks generalizing acc with
  | nil => simp [createResponseStreamGo]
  | cons c rest ih => simp [createResponseStreamGo, ih]

theorem createResponseStream_ok (q : String) (chunks : List StreamingChunk) :
    createResponseStream q (.ok chunks)
      = (chunks, some { question := q, answer := contentConcat chunks }) := by
  have h := createResponseStreamGo_ok q "" chunks
  simpa [createResponseStream] using h

theorem createResponseStream_raised (q err : String) (delivered : List StreamingChunk) :
    createResponseStream q (.raised delivered err)
      = (delivered ++ [errorChunk err], none) := by
  simp [createResponseStream, createResponseStreamGo_raised]

theorem streamResponseChunksGo_ok (chunks : List StreamingChunk) :
    streamResponseChunksGo chunks none = chunks.map sseFrame ++ [sseFrame endChunk] := by
  induction chunks with
  | nil => simp [streamResponseChunksGo]
  | cons c rest ih => simp [streamResponseChunksGo, ih]

theorem streamResponseChunksGo_raised (err : String) (chunks : List StreamingChunk) :
    streamResponseChunksGo chunks (some err)
      = chunks.map sseFrame ++ [sseFrame (errorChunk err)] := by
  induction chunks with
  | nil => simp [streamResponseChunksGo]
  | cons c rest ih => simp [streamResponseChunksGo, ih]

theorem contentConcat_map_contentChunk (l : List String) :
    contentConcat (l.map contentChunk) = concatAll l := by
  induction l with
  | nil => simp [contentConcat, concatAll]
  | cons s rest ih => simp [contentConcat, concatAll, contentChunk, ih]

theorem contentConcat_map_thinkingChunkOf (pairs : List (Bool × String)) :
    contentConcat (pairs.map thinkingChunkOf) = concatAll (answerTexts pairs) := by
  induction pairs with
  | nil => simp [contentConcat, answerTexts, concatAll]
  | cons bt rest ih =>
      rcases bt with ⟨b, t⟩
      cases b <;>
        simp [contentConcat, answerTexts, concatAll, thinkingChunkOf, thoughtChunk,
          contentChunk, ih]

theorem contentConcat_tokensChunk (l : List StreamingChunk) (n : Nat) :
    contentConcat (l ++ [tokensChunk n]) = contentConcat l := by
  rw [contentConcat_append]
  simp [contentConcat, tokensChunk]

theorem contentConcat_thinkingTokensChunk (l : List StreamingChunk) (n t : Nat) :
    contentConcat (l ++ [thinkingTokensChunk n t]) = contentConcat l := by
  rw [contentConcat_append]
  simp [contentConcat, thinkingTokensChunk]

theorem contentConcat_errorChunk (l : List StreamingChunk) (msg : String) :
    contentConcat (l ++ [errorChunk msg]) = contentConcat l := by
  rw [contentConcat_append]
  simp [contentConcat, errorChunk]

/- ### C1 -/

/-- C1: whenever the adapter's chunk sequence is exhausted without an
exception escaping to the aggregator (`.ok chunks`), the aggregator forwards
every chunk unchanged and persists a Question whose answer is exactly the
concatenation, in emission order, of the text of every `content`-kind chunk
(`contentConcat` folds only chunks with `type = "content"`, so `thought`,
`tokens` and `error` chunks contribute nothing). -/
theorem aggregator_persists_content_concatenation
    (question : String) (chunks : List StreamingChunk) :
    createResponseStream question (.ok chunks)
      = (chunks, some { question := question, answer := contentConcat chunks }) :=
  createResponseStream_ok question chunks

/- ### C4 -/

/-- C4: the aggregator persists a Question iff the adapter's sequence
completed without an escaping exception.  In particular a sequence whose
terminal element is an in-band `error` chunk (first conjunct, specialised in
the second) is still persisted, with the answer accumulated from the
`content` chunks delivered before the error; whereas a sequence that raises
into the aggregator (third conjunct) makes it forward the delivered prefix,
append one synthesized `error` chunk, and skip persistence. -/
theorem aggregator_persistence_iff_clean_completion
    (question err : String) (chunks delivered : List StreamingChunk) :
    createResponseStream question (.ok chunks)
      = (chunks, some { question := question, answer := contentConcat chunks })
    ∧ createResponseStream question (.ok (chunks ++ [errorChunk err]))
      = (chunks ++ [errorChunk err],
          some { question := question, answer := contentConcat chunks })
    ∧ createResponseStream question (.raised delivered err)
      = (delivered ++ [errorChunk err], none) := by
  refine ⟨createResponseStream_ok question chunks, ?_, createResponseStream_raised question err delivered⟩
  rw [createResponseStream_ok, contentConcat_errorChunk]

/- ### C7 -/

/-- C7: the wire encoder turns each chunk of the source sequence into one
`data:` frame carrying exactly the chunk's populated (non-null) fields;
after clean exhaustion it appends exactly one `end` frame, and when the
source raises it appends exactly one `error` frame (and nothing after it)
instead of the `end` frame. -/
theorem wire_encoder_frames (err : String) (chunks delivered : List StreamingChunk)
    (c : StreamingChunk) :
    streamResponseChunks (.ok chunks) = chunks.map sseFrame ++ [sseFrame endChunk]
    ∧ streamResponseChunks (.raised delivered err)
      = delivered.map sseFrame ++ [sseFrame (errorChunk err)]
    ∧ sseFrame c = "data: " ++ renderObject (chunkFields c) ++ "\n\n"
    ∧ (chunkFields c).map Prod.fst = populatedFields c := by
  refine ⟨streamResponseChunksGo_ok chunks, streamResponseChunksGo_raised err delivered, rfl, ?_⟩
  obtain ⟨ty, co, tk, tt, er⟩ := c
  cases co <;> cases tk <;> cases tt <;> cases er <;>
    simp [chunkFields, populatedFields]

/- ### C9 -/

/-- C9: for a completed run of the tool-augmented adapter, every streamed
token is emitted as a `content` chunk in order; one extra `content` chunk
carrying the final returned value verbatim is emitted exactly when that value
differs from the concatenation of the streamed tokens — independently of the
`validateFlow` oracle (structural validation) and of whether the value starts
with the AgentFlow marker; then the terminal `tokens` chunk follows. -/
theorem tool_adapter_final_result_chunk (question final : String) (toks : List String)
    (validateFlow : String → Bool) :
    askWithStreamingChunks validateFlow question (.ok toks final)
      = toks.map contentChunk
        ++ (if final = concatAll toks then [] else [contentChunk final])
        ++ [tokensChunk (calculateTokens question (concatAll toks))] := by
  by_cases heq : final = concatAll toks
  · simp [askWithStreamingChunks, heq]
  · by_cases hm : agentFlowMarker.isPrefixOf final <;>
      by_cases hv : validateFlow final <;>
        simp [askWithStreamingChunks, heq, hm, hv]

/- ### C10 -/

/-- C10: for every Gemini exchange the `contents` handed to the upstream
call already contain the appended question (first two conjuncts), and an
exchange whose upstream call raises leaves the history equal to the prior
history plus the question (no rollback, the question is the newest message)
while the chunk sequence ends in an `error` chunk and no model answer is
appended. -/
theorem question_append_not_rolled_back (message err : String)
    (history : List ChatMessage) (items delivered : List GenResponseChunk) :
    (generateStandardResponse message history (.ok items)).sentContents
      = buildGeminiContents (history ++ [ChatMessage.human message])
    ∧ (generateStandardResponse message history (.raised delivered err)).sentContents
      = buildGeminiContents (history ++ [ChatMessage.human message])
    ∧ (generateStandardResponse message history (.raised delivered err)).history
      = history ++ [ChatMessage.human message]
    ∧ (generateStandardResponse message history (.raised delivered err)).history.getLast?
      = some (ChatMessage.human message)
    ∧ (generateStandardResponse message history (.raised delivered err)).chunks.getLast?
      = some (errorChunk err)
    ∧ (generateThinkingResponse message history (.raised delivered err)).history
      = history ++ [ChatMessage.human message]
    ∧ (generateThinkingResponse message history (.raised delivered err)).history.getLast?
      = some (ChatMessage.human message)
    ∧ (generateThinkingResponse message history (.raised delivered err)).chunks.getLast?
      = some (errorChunk err) := by
  refine ⟨rfl, rfl, rfl, ?_, ?_, rfl, ?_, ?_⟩ <;>
    simp [generateStandardResponse, generateThinkingResponse]

/- ### C2 -/

/-- C2 (counterexample): an exchange whose upstream call raises immediately
produces the wire stream `[error frame, end frame]` — the stream contains
both an `error` frame and a distinct `end` frame, so "either
`tokens`-then-`end` or a single `error` frame, never both" is false: the
adapter reports the failure as an in-band `error` chunk and the generator
finishes normally, so the encoder still appends the `end` frame. -/
theorem wire_terminal_frames_counterexample :
    (geminiStandardExchange "q" [] (.raised [] "boom")).wire
      = [sseFrame (errorChunk "boom"), sseFrame endChunk]
    ∧ sseFrame (errorChunk "boom") ≠ sseFrame endChunk := by
  exact ⟨rfl, by decide⟩

/-- C2 (amended): for every Gemini exchange the wire stream is each adapter
chunk framed in order followed by exactly one `end` frame; the last chunk
before `end` is a `tokens` chunk (success) or an `error` chunk (failure) and
every earlier chunk is a `content`/`thought` chunk — so there is exactly one
`end` frame, at most one `error` frame, and an `error` frame is followed by
the `end` frame rather than terminating the stream alone. -/
theorem wire_terminal_frames_amended (message : String) (history : List ChatMessage)
    (up : UpstreamOutcome GenResponseChunk) :
    (geminiStandardExchange message history up).wire
      = ((generateStandardResponse message history up).chunks).map sseFrame
        ++ [sseFrame endChunk]
    ∧ (geminiThinkingExchange message history up).wire
      = ((generateThinkingResponse message history up).chunks).map sseFrame
        ++ [sseFrame endChunk]
    ∧ ((generateStandardResponse message history up).chunks.dropLast.all
        fun c => c.type == "content")
    ∧ ((generateThinkingResponse message history up).chunks.dropLast.all
        fun c => c.type == "content" || c.type == "thought")
    ∧ (generateStandardResponse message history up).chunks.getLast?.map (fun c => c.type)
      = some (match up with | .ok _ => "tokens" | .raised _ _ => "error")
    ∧ (generateThinkingResponse message history up).chunks.getLast?.map (fun c => c.type)
      = some (match up with | .ok _ => "tokens" | .raised _ _ => "error") := by
  refine ⟨?_, ?_, ?_, ?_, ?_, ?_⟩
  · cases up <;>
      simp [geminiStandardExchange, createResponseStream_ok, streamResponseChunks,
        streamResponseChunksGo_ok]
  · cases up <;>
      simp [geminiThinkingExchange, createResponseStream_ok, streamResponseChunks,
        streamResponseChunksGo_ok]
  · cases up <;>
      simp [generateStandardResponse, List.dropLast_concat, List.all_map, contentChunk,
        List.all_eq_true]
  · cases up <;>
      · simp only [generateThinkingResponse, List.dropLast_concat, List.all_eq_true]
        intro c hc
        rw [List.mem_map] at hc
        obtain ⟨bt, hbt, rfl⟩ := hc
        cases hb : bt.1 <;> simp [thinkingChunkOf, hb, thoughtChunk, contentChunk]
  · cases up <;> simp [generateStandardResponse, tokensChunk, errorChunk]
  · cases up <;> simp [generateThinkingResponse, thinkingTokensChunk, errorChunk]

/- ### C3 -/

/-- C3 (counterexample): when the upstream call raises before producing any
fragment, the consumer indeed receives exactly one `error` chunk, but the
Question store's save IS invoked for that exchange — the aggregator persists
`Question(question="q", answer="")`, so "the save operation is never
invoked" is false. -/
theorem upstream_failure_persistence_counterexample :
    (generateStandardResponse "q" [] (.raised [] "API Error")).chunks
      = [errorChunk "API Error"]
    ∧ (geminiStandardExchange "q" [] (.raised [] "API Error")).saved
      = some { question := "q", answer := "" }
    ∧ (geminiStandardExchange "q" [] (.raised [] "API Error")).saved
      ≠ (none : Option QuestionRecord) := by
  exact ⟨rfl, rfl, by decide⟩

/-- C3 (amended): when the upstream generation call raises before producing
any fragment, each Gemini adapter emits exactly one chunk, of kind `error`,
and the aggregator — because the adapter caught the exception and finished
normally — still invokes the Question store's save, with the empty
accumulated answer. -/
theorem upstream_failure_single_error_chunk_amended (message err : String)
    (history : List ChatMessage) :
    (generateStandardResponse message history (.raised [] err)).chunks
      = [errorChunk err]
    ∧ (generateThinkingResponse message history (.raised [] err)).chunks
      = [errorChunk err]
    ∧ createResponseStream message (.ok [errorChunk err])
      = ([errorChunk err], some { question := message, answer := "" }) := by
  refine ⟨?_, ?_, ?_⟩
  · simp [generateStandardResponse, allParts, stdTexts]
  · simp [generateThinkingResponse, allParts, thkPairs]
  · rw [createResponseStream_ok]
    simp [contentConcat, errorChunk]

/- ### C5 -/

/-- C5 (counterexample): a tool-augmented exchange in which the agent run
streams no token and returns the final value `"x y z w"` emits the chunks
`[content "x y z w", tokens 1]` — the persisted answer (the concatenation of
the `content` chunks) is `"x y z w"`, so the claimed estimate
`max(1, ⌊0.75·(words("a b") + words("x y z w"))⌋) = 4` differs from the `1`
actually carried: the code estimates from the streamed-token concatenation
(empty here), not from the answer. -/
theorem token_count_counterexample :
    askWithStreamingChunks (fun _ => true) "a b" (.ok [] "x y z w")
      = [contentChunk "x y z w", tokensChunk 1]
    ∧ contentConcat [contentChunk "x y z w", tokensChunk 1] = "x y z w"
    ∧ max 1 (3 * (pyWords "a b" + pyWords "x y z w") / 4) = 4
    ∧ (1 : Nat) ≠ 4 := by
  exact ⟨by decide, by decide, by decide, by decide⟩

/-- C5 (amended): the terminal `tokens` chunk carries the upstream-reported
usage total when the last upstream response supplies one, and otherwise the
word-count estimate — `words(answer) + words(question)` for the standard
Gemini adapter, additionally `+ words(thoughts)` (with `thoughtTokens =
words(thoughts)`) in thinking mode; the tool-augmented adapter always
carries `max(1, ⌊0.75·(words(question) + words(streamed))⌋)` where
`streamed` is the concatenation of the streamed run tokens, which excludes
any appended final-result chunk. -/
theorem token_count_policy_amended (message question final : String)
    (history : List ChatMessage) (items : List GenResponseChunk)
    (toks : List String) (validateFlow : String → Bool) :
    (generateStandardResponse message history (.ok items)).chunks.getLast?
      = some (tokensChunk (match lastResponseUsage items with
          | some u => u.total_token_count
          | none => pyWords (concatAll (stdTexts (allParts items))) + pyWords message))
    ∧ (generateThinkingResponse message history (.ok items)).chunks.getLast?
      = some (match lastResponseUsage items with
          | some u => thinkingTokensChunk u.total_token_count (u.thoughts_token_count.getD 0)
          | none => thinkingTokensChunk
              (pyWords (concatAll (answerTexts (thkPairs (allParts items)))) + pyWords message
                + pyWords (concatAll (thoughtTexts (thkPairs (allParts items)))))
              (pyWords (concatAll (thoughtTexts (thkPairs (allParts items))))))
    ∧ (askWithStreamingChunks validateFlow question (.ok toks final)).getLast?
      = some (tokensChunk (max 1 (3 * (pyWords question + pyWords (concatAll toks)) / 4))) := by
  refine ⟨?_, ?_, ?_⟩
  · cases h : lastResponseUsage items <;>
      simp [generateStandardResponse, extractTokenUsage, h]
  · cases h : lastResponseUsage items <;>
      simp [generateThinkingResponse, extractThinkingTokenUsage, h]
  · by_cases heq : final = concatAll toks
    · simp [askWithStreamingChunks, heq, calculateTokens]
    · by_cases hm : agentFlowMarker.isPrefixOf final <;>
        by_cases hv : validateFlow final <;>
          simp [askWithStreamingChunks, heq, hm, hv, calculateTokens]

/- ### C6 -/

/-- The chunk (if any) that one upstream fragment is forwarded as in
thinking mode: none when its text is absent/empty, otherwise a `thought` or
`content` chunk according to the `part.thought` flag. -/
def fragmentChunk (p : GenPart) : Option StreamingChunk :=
  if p.text = "" then none
  else if p.thought then some (thoughtChunk p.text) else some (contentChunk p.text)

theorem thkPairs_map_thinkingChunkOf (ps : List GenPart) :
    (thkPairs ps).map thinkingChunkOf = ps.filterMap fragmentChunk := by
  induction ps with
  | nil => simp [thkPairs]
  | cons p rest ih =>
      by_cases ht : p.text = ""
      · simpa [thkPairs, fragmentChunk, ht] using ih
      · cases hb : p.thought <;>
          simpa [thkPairs, fragmentChunk, thinkingChunkOf, ht, hb] using ih

/-- C6 (counterexample): a thinking-mode exchange whose upstream delivers a
single thought-flagged fragment with empty text emits no `thought` chunk at
all (only the terminal `tokens` chunk), so "each upstream fragment flagged
as thought is forwarded as a 'thought' chunk" is false: fragments with
absent/empty text are skipped. -/
theorem thinking_fragment_forwarding_counterexample :
    (generateThinkingResponse "q" []
        (.ok [{ candidates := [{ parts := [{ text := "", thought := true }] }],
                usage_metadata := some { total_token_count := 5 } }])).chunks
      = [thinkingTokensChunk 5 0]
    ∧ (thinkingTokensChunk 5 0).type ≠ "thought" := by
  exact ⟨by decide, by decide⟩

/-- C6 (amended): in thinking mode the chunks before the terminal one are
exactly the upstream fragments in delivery order, each fragment with
non-empty text forwarded as a `thought` chunk when flagged and as a
`content` chunk otherwise, and each fragment with absent/empty text skipped;
in standard (non-thinking) mode no `thought` chunk ever appears. -/
theorem thinking_fragment_forwarding_amended (message err : String)
    (history : List ChatMessage) (items delivered : List GenResponseChunk) :
    (generateThinkingResponse message history (.ok items)).chunks.dropLast
      = (allParts items).filterMap fragmentChunk
    ∧ (generateThinkingResponse message history (.raised delivered err)).chunks.dropLast
      = (allParts delivered).filterMap fragmentChunk
    ∧ ((generateStandardResponse message history (.ok items)).chunks.all
        fun c => c.type != "thought")
    ∧ ((generateStandardResponse message history (.raised delivered err)).chunks.all
        fun c => c.type != "thought") := by
  refine ⟨?_, ?_, ?_, ?_⟩
  · simp [generateThinkingResponse, List.dropLast_concat, thkPairs_map_thinkingChunkOf]
  · simp [generateThinkingResponse, List.dropLast_concat, thkPairs_map_thinkingChunkOf]
  · simp [generateStandardResponse, List.all_eq_true, contentChunk, tokensChunk]
  · simp [generateStandardResponse, List.all_eq_true, contentChunk, errorChunk]

/- ### C8 -/

/-- C8: a successful Gemini exchange appends exactly two messages to the
conversation history — first the user's question, then the accumulated model
answer, which equals the concatenation of the emitted `content` chunks'
text (so thinking text is never appended) — and the `contents` passed to the
generation call are built from the full history including the just-appended
question, i.e. the history is read in full before the call. -/
theorem history_two_appends (message : String) (history : List ChatMessage)
    (items : List GenResponseChunk) :
    (generateStandardResponse message history (.ok items)).history
      = history ++ [ChatMessage.human message,
          ChatMessage.ai (contentConcat (generateStandardResponse message history (.ok items)).chunks)]
    ∧ (generateStandardResponse message history (.ok items)).sentContents
      = buildGeminiContents (history ++ [ChatMessage.human message])
    ∧ (generateThinkingResponse message history (.ok items)).history
      = history ++ [ChatMessage.human message,
          ChatMessage.ai (contentConcat (generateThinkingResponse message history (.ok items)).chunks)]
    ∧ (generateThinkingResponse message history (.ok items)).sentContents
      = buildGeminiContents (history ++ [ChatMessage.human message]) := by
  refine ⟨?_, rfl, ?_, rfl⟩
  · simp [generateStandardResponse, contentConcat_tokensChunk, contentConcat_map_contentChunk]
  · simp [generateThinkingResponse, contentConcat_thinkingTokensChunk,
      contentConcat_map_thinkingChunkOf]

end GptAgent
